import Mathlib

/-!
Shallow embedding of the segment-query layer of the parametric-sketch engine
(`src/wasm-lib/kcl/src/std/segment.rs`).

Modelling conventions:
* `f64` values are modelled as real numbers (`ℝ`).  Where the source can
  produce an IEEE NaN (the `acos`/`asin` calls composed with a division that
  may divide by zero or leave the domain `[-1, 1]`), the result is modelled
  as `Option ℝ`, with `none` standing for NaN.
* Fallible Rust functions returning `Result<T, KclError>` are modelled as
  `Except KclError T`; the `?` operator becomes an explicit match.
* Functions of the repository that are outside the excerpt
  (`Path::length`, `Path::get_tangential_info`/`tan_previous_point`,
  `utils::between`, `Angle`, the tag lookup `Args::get_tag_engine_info`,
  and Rust's `Debug` formatting) are modelled from the spec, as noted on
  each definition.
-/

namespace SegmentSpec

noncomputable section

/-- A source-code range attached to errors for diagnostics. -/
structure SourceRange where
  startPos : Nat
  endPos : Nat
deriving DecidableEq

/-- Mirrors `KclErrorDetails { message, source_ranges }`. -/
structure KclErrorDetails where
  message : String
  source_ranges : List SourceRange
deriving DecidableEq

/-- Mirrors the `KclError` variants used in `segment.rs` (only `KclError::Type`
is constructed there). -/
inductive KclError where
  | TypeErr : KclErrorDetails → KclError
deriving DecidableEq

/-- Mirrors the shared base record of every path kind: `from: [f64;2]`,
`to: [f64;2]` (sketch-local coordinates). -/
structure BasePath where
  from_ : ℝ × ℝ
  to_ : ℝ × ℝ

/-- Modelled from the spec: a resolved path segment.  The source's `Path` is a
tagged union over segment kinds defined outside the excerpt; the excerpt only
uses its base record (`get_base`/`get_from`/`get_to`), its per-kind arc length
(`length()`, "this core treats that function as given"), and the per-kind
tangent reference point (`get_tangential_info().tan_previous_point(p)`, the
kind-dependent derivation "for straight segments, a point along the line on
the far side from `to`; for arcs, a point derived from the arc's center and
sweep direction").  Those three are therefore carried as data. -/
structure Path where
  base : BasePath
  len : ℝ
  tanPrev : ℝ × ℝ → ℝ × ℝ

/-- Mirrors `path.get_base()`. -/
def Path.get_base (p : Path) : BasePath := p.base

/-- Mirrors `path.get_from()` (the base record's `from`). -/
def Path.get_from (p : Path) : ℝ × ℝ := p.base.from_

/-- Mirrors `path.get_to()` (the base record's `to`). -/
def Path.get_to (p : Path) : ℝ × ℝ := p.base.to_

/-- Modelled from the spec: `path.length()`, the per-kind Euclidean arc
length, treated as given data of the segment. -/
def Path.length (p : Path) : ℝ := p.len

/-- A sketch: an ordered sequence of path segments.  `dbgRepr` models the
string produced by Rust's `Debug` formatting of the sketch (used only inside
error messages). -/
structure Sketch where
  paths : List Path
  dbgRepr : String

/-- The engine info a tag resolves to; its `path` is `None` when the tag is
bound to a non-geometric value.  `dbgRepr` models the `Debug` formatting of
the info (used only inside error messages). -/
structure TagEngineInfo where
  path : Option Path
  dbgRepr : String

/-- A tag is a symbolic name. -/
abbrev TagIdentifier := String

/-- Modelled from the spec: the slice of evaluator state consulted here, the
read-only tag-to-engine-info binding table. -/
structure ExecState where
  tagInfo : TagIdentifier → Option TagEngineInfo

/-- The slice of `Args` used by the excerpt: the source location of the call,
attached to every error. -/
structure Args where
  source_range : SourceRange

/-- Modelled from the spec: `args.get_tag_engine_info(exec_state, tag)`.
Looks up the binding; an unbound tag fails with a `TypeError`-class error
carrying the tag name and the query's source location. -/
def get_tag_engine_info (es : ExecState) (tag : TagIdentifier) (args : Args) :
    Except KclError TagEngineInfo :=
  match es.tagInfo tag with
  | some info => Except.ok info
  | none =>
      Except.error (KclError.TypeErr
        { message := "Tag `" ++ tag ++ "` does not exist"
          source_ranges := [args.source_range] })

/-- The error built, with identical text, by every tag query of `segment.rs`
when the resolved engine info has no path: `KclError::Type(KclErrorDetails
with message "Expected a line segment with a path, found `{:?}`" formatting
the resolved value, and source_ranges `vec![args.source_range]`)`. -/
def pathMissingError (line : TagEngineInfo) (args : Args) : KclError :=
  KclError.TypeErr
    { message := "Expected a line segment with a path, found `" ++
        line.dbgRepr ++ "`"
      source_ranges := [args.source_range] }

/-- Mirrors the step repeated verbatim in every tag query of `segment.rs`:
`line.path.clone().ok_or_else(|| KclError::Type(...))?`. -/
def pathOrErr (line : TagEngineInfo) (args : Args) : Except KclError Path :=
  match line.path with
  | some p => Except.ok p
  | none => Except.error (pathMissingError line args)

/-- The error built, with identical text, by the four sketch-consuming
queries when the sketch has no segments: `KclError::Type(KclErrorDetails
with message "Expected a Sketch with at least one segment, found `{:?}`"
formatting the sketch, and source_ranges `vec![args.source_range]`)`. -/
def emptySketchError (sketch : Sketch) (args : Args) : KclError :=
  KclError.TypeErr
    { message := "Expected a Sketch with at least one segment, found `" ++
        sketch.dbgRepr ++ "`"
      source_ranges := [args.source_range] }

/-- Mirrors the step shared by `inner_last_segment_x/y` and
`inner_angle_to_match_length_x/y` (identical source text in all four):
`sketch.paths.last().ok_or_else(|| KclError::Type(...))?.get_base()`. -/
def lastBaseOrErr (sketch : Sketch) (args : Args) : Except KclError BasePath :=
  match sketch.paths.getLast? with
  | some p => Except.ok p.get_base
  | none => Except.error (emptySketchError sketch args)

/-- Mirrors Rust's `f64::to_degrees` / `Angle::to_degrees`: radians times
`180 / π`. -/
def toDegrees (r : ℝ) : ℝ := r * 180 / Real.pi

/-- Models `f64::atan2(y, x)` over the reals via the complex argument, which
shares atan2's quadrant convention (range `(-π, π]`, `atan2 0 0 = 0`). -/
def atan2 (y x : ℝ) : ℝ := Complex.arg ⟨x, y⟩

/-- Modelled from the spec: `utils::between(a, b)`, the angle in radians of
the vector from `a` to `b`, "computed via a two-argument arctangent". -/
def between (a b : ℝ × ℝ) : ℝ := atan2 (b.2 - a.2) (b.1 - a.1)

/-- Models the composite f64 computation `(diff / length).acos()`: NaN
(`none`) when `length = 0` (the quotient is NaN or ±∞) or when the quotient
leaves `acos`'s domain `[-1, 1]`. -/
def facos (diff length : ℝ) : Option ℝ :=
  if length ≠ 0 ∧ -1 ≤ diff / length ∧ diff / length ≤ 1 then
    some (Real.arccos (diff / length))
  else none

/-- Models the composite f64 computation `(diff / length).asin()`: NaN
(`none`) when `length = 0` or when the quotient leaves `asin`'s domain
`[-1, 1]`. -/
def fasin (diff length : ℝ) : Option ℝ :=
  if length ≠ 0 ∧ -1 ≤ diff / length ∧ diff / length ≤ 1 then
    some (Real.arcsin (diff / length))
  else none

/-- Mirrors `inner_segment_end`. -/
def inner_segment_end (tag : TagIdentifier) (es : ExecState) (args : Args) :
    Except KclError (ℝ × ℝ) :=
  match get_tag_engine_info es tag args with
  | Except.error e => Except.error e
  | Except.ok line =>
    match pathOrErr line args with
    | Except.error e => Except.error e
    | Except.ok path => Except.ok path.get_base.to_

/-- Mirrors `inner_segment_end_x`. -/
def inner_segment_end_x (tag : TagIdentifier) (es : ExecState) (args : Args) :
    Except KclError ℝ :=
  match get_tag_engine_info es tag args with
  | Except.error e => Except.error e
  | Except.ok line =>
    match pathOrErr line args with
    | Except.error e => Except.error e
    | Except.ok path => Except.ok path.get_base.to_.1

/-- Mirrors `inner_segment_end_y` (the source reads `path.get_to()[1]`). -/
def inner_segment_end_y (tag : TagIdentifier) (es : ExecState) (args : Args) :
    Except KclError ℝ :=
  match get_tag_engine_info es tag args with
  | Except.error e => Except.error e
  | Except.ok line =>
    match pathOrErr line args with
    | Except.error e => Except.error e
    | Except.ok path => Except.ok path.get_to.2

/-- Mirrors `inner_segment_start`. -/
def inner_segment_start (tag : TagIdentifier) (es : ExecState) (args : Args) :
    Except KclError (ℝ × ℝ) :=
  match get_tag_engine_info es tag args with
  | Except.error e => Except.error e
  | Except.ok line =>
    match pathOrErr line args with
    | Except.error e => Except.error e
    | Except.ok path => Except.ok path.get_from

/-- Mirrors `inner_segment_start_x`. -/
def inner_segment_start_x (tag : TagIdentifier) (es : ExecState) (args : Args) :
    Except KclError ℝ :=
  match get_tag_engine_info es tag args with
  | Except.error e => Except.error e
  | Except.ok line =>
    match pathOrErr line args with
    | Except.error e => Except.error e
    | Except.ok path => Except.ok path.get_from.1

/-- Mirrors `inner_segment_start_y`. -/
def inner_segment_start_y (tag : TagIdentifier) (es : ExecState) (args : Args) :
    Except KclError ℝ :=
  match get_tag_engine_info es tag args with
  | Except.error e => Except.error e
  | Except.ok line =>
    match pathOrErr line args with
    | Except.error e => Except.error e
    | Except.ok path => Except.ok path.get_from.2

/-- Mirrors `inner_last_segment_x`. -/
def inner_last_segment_x (sketch : Sketch) (args : Args) : Except KclError ℝ :=
  match lastBaseOrErr sketch args with
  | Except.error e => Except.error e
  | Except.ok last_line => Except.ok last_line.to_.1

/-- Mirrors `inner_last_segment_y`. -/
def inner_last_segment_y (sketch : Sketch) (args : Args) : Except KclError ℝ :=
  match lastBaseOrErr sketch args with
  | Except.error e => Except.error e
  | Except.ok last_line => Except.ok last_line.to_.2

/-- Mirrors `inner_segment_length`. -/
def inner_segment_length (tag : TagIdentifier) (es : ExecState) (args : Args) :
    Except KclError ℝ :=
  match get_tag_engine_info es tag args with
  | Except.error e => Except.error e
  | Except.ok line =>
    match pathOrErr line args with
    | Except.error e => Except.error e
    | Except.ok path => Except.ok path.length

/-- Mirrors `inner_segment_angle`:
`between(path.get_from(), path.get_to())` converted to degrees. -/
def inner_segment_angle (tag : TagIdentifier) (es : ExecState) (args : Args) :
    Except KclError ℝ :=
  match get_tag_engine_info es tag args with
  | Except.error e => Except.error e
  | Except.ok line =>
    match pathOrErr line args with
    | Except.error e => Except.error e
    | Except.ok path => Except.ok (toDegrees (between path.get_from path.get_to))

/-- Mirrors `inner_tangent_to_end`: with `from = path.get_to()` and
`tan_previous_point = get_tangential_info().tan_previous_point(from)`, the
result is `atan2(from.y - tan_previous_point.y, from.x - tan_previous_point.x)`
converted to degrees. -/
def inner_tangent_to_end (tag : TagIdentifier) (es : ExecState) (args : Args) :
    Except KclError ℝ :=
  match get_tag_engine_info es tag args with
  | Except.error e => Except.error e
  | Except.ok line =>
    match pathOrErr line args with
    | Except.error e => Except.error e
    | Except.ok path =>
      let from_ := path.get_to
      let tan_previous_point := path.tanPrev from_
      Except.ok (toDegrees
        (atan2 (from_.2 - tan_previous_point.2) (from_.1 - tan_previous_point.1)))

/-- The body of `inner_angle_to_match_length_x` after the path has been
resolved: `length = path.length()`, the last-segment lookup, `diff = (to -
last_line.to_[0]).abs()`, the unconditional `angle_r = (diff/length).acos()`,
and the final branch on `diff > length`. -/
def angle_to_match_length_x_core (path : Path) (to_ : ℝ) (sketch : Sketch)
    (args : Args) : Except KclError (Option ℝ) :=
  let length := path.length
  match lastBaseOrErr sketch args with
  | Except.error e => Except.error e
  | Except.ok last_line =>
    let diff := |to_ - last_line.to_.1|
    let angle_r := facos diff length
    if diff > length then Except.ok (some 0)
    else Except.ok (Option.map toDegrees angle_r)

/-- Mirrors `inner_angle_to_match_length_x`: tag resolution, the path check,
then `angle_to_match_length_x_core`. -/
def inner_angle_to_match_length_x (tag : TagIdentifier) (to_ : ℝ)
    (sketch : Sketch) (es : ExecState) (args : Args) :
    Except KclError (Option ℝ) :=
  match get_tag_engine_info es tag args with
  | Except.error e => Except.error e
  | Except.ok line =>
    match pathOrErr line args with
    | Except.error e => Except.error e
    | Except.ok path => angle_to_match_length_x_core path to_ sketch args

/-- The body of `inner_angle_to_match_length_y` after the path has been
resolved: as the X variant but with `last_line.to_[1]` and `asin`. -/
def angle_to_match_length_y_core (path : Path) (to_ : ℝ) (sketch : Sketch)
    (args : Args) : Except KclError (Option ℝ) :=
  let length := path.length
  match lastBaseOrErr sketch args with
  | Except.error e => Except.error e
  | Except.ok last_line =>
    let diff := |to_ - last_line.to_.2|
    let angle_r := fasin diff length
    if diff > length then Except.ok (some 0)
    else Except.ok (Option.map toDegrees angle_r)

/-- Mirrors `inner_angle_to_match_length_y`: tag resolution, the path check,
then `angle_to_match_length_y_core`. -/
def inner_angle_to_match_length_y (tag : TagIdentifier) (to_ : ℝ)
    (sketch : Sketch) (es : ExecState) (args : Args) :
    Except KclError (Option ℝ) :=
  match get_tag_engine_info es tag args with
  | Except.error e => Except.error e
  | Except.ok line =>
    match pathOrErr line args with
    | Except.error e => Except.error e
    | Except.ok path => angle_to_match_length_y_core path to_ sketch args

/-! ## Helper lemmas -/

/-- A successful tag lookup. -/
lemma get_tag_engine_info_ok {es : ExecState} {tag : TagIdentifier} {args : Args}
    {info : TagEngineInfo} (h : es.tagInfo tag = some info) :
    get_tag_engine_info es tag args = Except.ok info := by
  simp [get_tag_engine_info, h]

/-- A successful path extraction. -/
lemma pathOrErr_some {line : TagEngineInfo} {args : Args} {p : Path}
    (h : line.path = some p) : pathOrErr line args = Except.ok p := by
  simp [pathOrErr, h]

/-- The path-missing error branch. -/
lemma pathOrErr_none {line : TagEngineInfo} {args : Args}
    (h : line.path = none) :
    pathOrErr line args = Except.error (KclError.TypeErr
      { message := "Expected a line segment with a path, found `" ++
          line.dbgRepr ++ "`"
        source_ranges := [args.source_range] }) := by
  simp [pathOrErr, pathMissingError, h]

/-- The last segment of a non-empty sketch. -/
lemma lastBaseOrErr_concat {sketch : Sketch} {args : Args} {ps : List Path}
    {lastP : Path} (h : sketch.paths = ps ++ [lastP]) :
    lastBaseOrErr sketch args = Except.ok lastP.get_base := by
  simp [lastBaseOrErr, h, List.getLast?_concat]

/-- The empty-sketch error branch. -/
lemma lastBaseOrErr_nil {sketch : Sketch} {args : Args}
    (h : sketch.paths = []) :
    lastBaseOrErr sketch args = Except.error (KclError.TypeErr
      { message := "Expected a Sketch with at least one segment, found `" ++
          sketch.dbgRepr ++ "`"
        source_ranges := [args.source_range] }) := by
  simp [lastBaseOrErr, emptySketchError, h]

/-- Once the tag resolves and carries a path, the X-variant angle query runs
its core computation. -/
lemma inner_angle_x_resolved {es : ExecState} {tag : TagIdentifier}
    {args : Args} {info : TagEngineInfo} {p : Path} (to_ : ℝ) (sketch : Sketch)
    (hres : es.tagInfo tag = some info) (hpath : info.path = some p) :
    inner_angle_to_match_length_x tag to_ sketch es args =
      angle_to_match_length_x_core p to_ sketch args := by
  simp [inner_angle_to_match_length_x, get_tag_engine_info_ok hres,
    pathOrErr_some hpath]

/-- Once the tag resolves and carries a path, the Y-variant angle query runs
its core computation. -/
lemma inner_angle_y_resolved {es : ExecState} {tag : TagIdentifier}
    {args : Args} {info : TagEngineInfo} {p : Path} (to_ : ℝ) (sketch : Sketch)
    (hres : es.tagInfo tag = some info) (hpath : info.path = some p) :
    inner_angle_to_match_length_y tag to_ sketch es args =
      angle_to_match_length_y_core p to_ sketch args := by
  simp [inner_angle_to_match_length_y, get_tag_engine_info_ok hres,
    pathOrErr_some hpath]

/-- The acos model succeeds exactly on the closed domain, for a nonnegative
numerator bounded by a nonzero denominator. -/
lemma facos_of_le {diff len : ℝ} (h0 : 0 ≤ diff) (hd : diff ≤ len)
    (hne : len ≠ 0) : facos diff len = some (Real.arccos (diff / len)) := by
  have hpos : 0 < len := lt_of_le_of_ne (le_trans h0 hd) (Ne.symm hne)
  have hq0 : 0 ≤ diff / len := div_nonneg h0 hpos.le
  unfold facos
  rw [if_pos ⟨hne, le_trans (by norm_num) hq0, (div_le_one hpos).mpr hd⟩]

/-- The asin model succeeds exactly on the closed domain, for a nonnegative
numerator bounded by a nonzero denominator. -/
lemma fasin_of_le {diff len : ℝ} (h0 : 0 ≤ diff) (hd : diff ≤ len)
    (hne : len ≠ 0) : fasin diff len = some (Real.arcsin (diff / len)) := by
  have hpos : 0 < len := lt_of_le_of_ne (le_trans h0 hd) (Ne.symm hne)
  have hq0 : 0 ≤ diff / len := div_nonneg h0 hpos.le
  unfold fasin
  rw [if_pos ⟨hne, le_trans (by norm_num) hq0, (div_le_one hpos).mpr hd⟩]

/-- atan2 is invariant under scaling both components by a positive factor. -/
lemma atan2_mul_pos {t : ℝ} (y x : ℝ) (ht : 0 < t) :
    atan2 (t * y) (t * x) = atan2 y x := by
  unfold atan2
  have hmk : (⟨t * x, t * y⟩ : ℂ) = (t : ℂ) * ⟨x, y⟩ := by
    apply Complex.ext <;>
      simp [Complex.mul_re, Complex.mul_im]
  rw [hmk]
  exact Complex.arg_real_mul _ ht

/-- atan2 of a zero ordinate and positive abscissa is zero. -/
lemma atan2_zero_pos {w : ℝ} (hw : 0 < w) : atan2 0 w = 0 :=
  Complex.arg_eq_zero_iff.mpr ⟨hw.le, rfl⟩

/-- atan2 of a positive ordinate and zero abscissa is `π/2`. -/
lemma atan2_pos_zero {hh : ℝ} (h : 0 < hh) : atan2 hh 0 = Real.pi / 2 :=
  Complex.arg_eq_pi_div_two_iff.mpr ⟨rfl, h⟩

/-- atan2 of the zero vector is zero (the complex argument of `0`). -/
lemma atan2_zero_zero : atan2 0 0 = 0 := by
  unfold atan2
  have h0 : (⟨0, 0⟩ : ℂ) = 0 := by
    apply Complex.ext <;> simp
  rw [h0, Complex.arg_zero]

/-- Zero radians is zero degrees. -/
lemma toDegrees_zero : toDegrees 0 = 0 := by
  simp [toDegrees]

/-- `π/2` radians is `90` degrees. -/
lemma toDegrees_pi_div_two : toDegrees (Real.pi / 2) = 90 := by
  unfold toDegrees
  field_simp
  ring

/-! ## Claim theorems -/

/-- C1: for every call to `angleToMatchLengthX` or `angleToMatchLengthY`
where the tag resolves to a segment with a path, the sketch is non-empty, and
`diff = |target - (last segment's to)[axis]|` exceeds the resolved segment's
length, the operation returns exactly `0` (a real zero, not NaN) and does not
fail with an error. -/
theorem angle_to_match_length_unreachable_returns_zero
    (es : ExecState) (tag : TagIdentifier) (args : Args) (to_ : ℝ)
    (sketch : Sketch) (info : TagEngineInfo) (p : Path) (ps : List Path)
    (lastP : Path)
    (hres : es.tagInfo tag = some info) (hpath : info.path = some p)
    (hsk : sketch.paths = ps ++ [lastP]) :
    (|to_ - lastP.get_base.to_.1| > p.length →
      inner_angle_to_match_length_x tag to_ sketch es args =
        Except.ok (some 0)) ∧
    (|to_ - lastP.get_base.to_.2| > p.length →
      inner_angle_to_match_length_y tag to_ sketch es args =
        Except.ok (some 0)) := by
  constructor <;> intro hd
  · rw [inner_angle_x_resolved to_ sketch hres hpath]
    simp [angle_to_match_length_x_core, lastBaseOrErr_concat hsk, hd]
  · rw [inner_angle_y_resolved to_ sketch hres hpath]
    simp [angle_to_match_length_y_core, lastBaseOrErr_concat hsk, hd]

/-- Witness for C1, at the spec's example: segment length `5`, last point
`(0, 0)`, target `20`, so `diff = 20 > 5` on both axes; both variants return
`0`. -/
theorem angle_to_match_length_unreachable_returns_zero_witness :
    inner_angle_to_match_length_x "seg01" 20
        ⟨[⟨⟨(0, 0), (0, 0)⟩, 5, fun q => q⟩], "sk"⟩
        ⟨fun _ => some ⟨some ⟨⟨(0, 0), (0, 0)⟩, 5, fun q => q⟩, "info"⟩⟩
        ⟨⟨0, 1⟩⟩ = Except.ok (some 0) ∧
    inner_angle_to_match_length_y "seg01" 20
        ⟨[⟨⟨(0, 0), (0, 0)⟩, 5, fun q => q⟩], "sk"⟩
        ⟨fun _ => some ⟨some ⟨⟨(0, 0), (0, 0)⟩, 5, fun q => q⟩, "info"⟩⟩
        ⟨⟨0, 1⟩⟩ = Except.ok (some 0) := by
  have h := angle_to_match_length_unreachable_returns_zero
    ⟨fun _ => some ⟨some ⟨⟨(0, 0), (0, 0)⟩, 5, fun q => q⟩, "info"⟩⟩
    "seg01" ⟨⟨0, 1⟩⟩ 20
    ⟨[⟨⟨(0, 0), (0, 0)⟩, 5, fun q => q⟩], "sk"⟩
    ⟨some ⟨⟨(0, 0), (0, 0)⟩, 5, fun q => q⟩, "info"⟩
    ⟨⟨(0, 0), (0, 0)⟩, 5, fun q => q⟩ []
    ⟨⟨(0, 0), (0, 0)⟩, 5, fun q => q⟩ rfl rfl rfl
  constructor
  · exact h.1 (by norm_num [Path.get_base, Path.length])
  · exact h.2 (by norm_num [Path.get_base, Path.length])

/-- C2: for every call to `angleToMatchLengthX` (resp. `Y`) where the tag
resolves to a segment of length `L` and the sketch is non-empty with last
point `P`, if `diff = |target - P[axis]| ≤ L` then the returned angle is
`acos(diff/L)` (resp. `asin(diff/L)`) converted from radians to degrees
(`facos`/`fasin` model the f64 composite, with `none` for NaN); whenever
`L ≠ 0` this is the real number `arccos(diff/L)` (resp. `arcsin`) in degrees.
The spec's example instance (`L = 7`, last `x = 3`, target `10`, result `0`
degrees) is checked in the witness. -/
theorem angle_to_match_length_reachable_formula
    (es : ExecState) (tag : TagIdentifier) (args : Args) (to_ : ℝ)
    (sketch : Sketch) (info : TagEngineInfo) (p : Path) (ps : List Path)
    (lastP : Path)
    (hres : es.tagInfo tag = some info) (hpath : info.path = some p)
    (hsk : sketch.paths = ps ++ [lastP]) :
    (|to_ - lastP.get_base.to_.1| ≤ p.length →
      inner_angle_to_match_length_x tag to_ sketch es args =
        Except.ok (Option.map toDegrees
          (facos (|to_ - lastP.get_base.to_.1|) p.length)) ∧
      (p.length ≠ 0 →
        inner_angle_to_match_length_x tag to_ sketch es args =
          Except.ok (some (toDegrees
            (Real.arccos (|to_ - lastP.get_base.to_.1| / p.length)))))) ∧
    (|to_ - lastP.get_base.to_.2| ≤ p.length →
      inner_angle_to_match_length_y tag to_ sketch es args =
        Except.ok (Option.map toDegrees
          (fasin (|to_ - lastP.get_base.to_.2|) p.length)) ∧
      (p.length ≠ 0 →
        inner_angle_to_match_length_y tag to_ sketch es args =
          Except.ok (some (toDegrees
            (Real.arcsin (|to_ - lastP.get_base.to_.2| / p.length)))))) := by
  constructor <;> intro hd
  · have hbranch :
        inner_angle_to_match_length_x tag to_ sketch es args =
          Except.ok (Option.map toDegrees
            (facos (|to_ - lastP.get_base.to_.1|) p.length)) := by
      rw [inner_angle_x_resolved to_ sketch hres hpath]
      simp [angle_to_match_length_x_core, lastBaseOrErr_concat hsk,
        not_lt.mpr hd]
    refine ⟨hbranch, fun hne => ?_⟩
    rw [hbranch, facos_of_le (abs_nonneg _) hd hne]
    rfl
  · have hbranch :
        inner_angle_to_match_length_y tag to_ sketch es args =
          Except.ok (Option.map toDegrees
            (fasin (|to_ - lastP.get_base.to_.2|) p.length)) := by
      rw [inner_angle_y_resolved to_ sketch hres hpath]
      simp [angle_to_match_length_y_core, lastBaseOrErr_concat hsk,
        not_lt.mpr hd]
    refine ⟨hbranch, fun hne => ?_⟩
    rw [hbranch, fasin_of_le (abs_nonneg _) hd hne]
    rfl

/-- Witness for C2, at the spec's example: segment length `7`, last point
`(3, 0)`, target `10`, so `diff = 7 = L` and the X variant returns
`acos(1) = 0` degrees. -/
theorem angle_to_match_length_reachable_formula_witness :
    inner_angle_to_match_length_x "seg01" 10
        ⟨[⟨⟨(0, 0), (3, 0)⟩, 7, fun q => q⟩], "sk"⟩
        ⟨fun _ => some ⟨some ⟨⟨(0, 0), (3, 0)⟩, 7, fun q => q⟩, "info"⟩⟩
        ⟨⟨0, 1⟩⟩ = Except.ok (some 0) := by
  have h := ((angle_to_match_length_reachable_formula
    ⟨fun _ => some ⟨some ⟨⟨(0, 0), (3, 0)⟩, 7, fun q => q⟩, "info"⟩⟩
    "seg01" ⟨⟨0, 1⟩⟩ 10
    ⟨[⟨⟨(0, 0), (3, 0)⟩, 7, fun q => q⟩], "sk"⟩
    ⟨some ⟨⟨(0, 0), (3, 0)⟩, 7, fun q => q⟩, "info"⟩
    ⟨⟨(0, 0), (3, 0)⟩, 7, fun q => q⟩ []
    ⟨⟨(0, 0), (3, 0)⟩, 7, fun q => q⟩ rfl rfl rfl).1
    (by norm_num [Path.get_base, Path.length])).2
    (by norm_num [Path.length])
  rw [h]
  norm_num [Path.get_base, Path.length, Real.arccos_one, toDegrees]

/-- C3 counterexample: at the spec's own data point (`L = 5`, last point
`(0, 0)`, target `20`) the acos invocation inside `angleToMatchLengthX`
receives the argument `diff / L = 20 / 5 = 4`, which is not `≤ 1`, and its
NaN branch IS taken (`facos 20 5 = none`) — the source computes
`(diff / length).acos()` before checking `diff > length`, not after.  The
call itself still returns `0`, so the NaN is discarded, not returned. -/
theorem trig_call_before_branch_cex :
    ¬ (|(20:ℝ) - ((0:ℝ), (0:ℝ)).1| / 5 ≤ 1) ∧
    facos (|(20:ℝ) - ((0:ℝ), (0:ℝ)).1|) 5 = none ∧
    inner_angle_to_match_length_x "seg01" 20
        ⟨[⟨⟨(0, 0), (0, 0)⟩, 5, fun q => q⟩], "sk"⟩
        ⟨fun _ => some ⟨some ⟨⟨(0, 0), (0, 0)⟩, 5, fun q => q⟩, "info"⟩⟩
        ⟨⟨0, 1⟩⟩ = Except.ok (some 0) := by
  refine ⟨by norm_num, ?_, ?_⟩
  · unfold facos
    rw [if_neg]
    push_neg
    intro _ _
    norm_num
  · rw [inner_angle_x_resolved 20 ⟨[⟨⟨(0, 0), (0, 0)⟩, 5, fun q => q⟩], "sk"⟩
      rfl rfl]
    have hlast : Sketch.paths ⟨[⟨⟨(0, 0), (0, 0)⟩, 5, fun q => q⟩], "sk"⟩ =
        [] ++ [⟨⟨(0, 0), (0, 0)⟩, 5, fun q => q⟩] := rfl
    unfold angle_to_match_length_x_core
    rw [lastBaseOrErr_concat hlast]
    norm_num [Path.get_base, Path.length]

/-- C3 (amended): in `angleToMatchLengthX`/`angleToMatchLengthY` the
`acos`/`asin` is invoked before the `diff > L` branch, so its NaN case is
reachable (the counterexample); but whenever `diff ≤ L` and `L ≠ 0` the
argument `diff/L` lies in `[0, 1]` and the NaN branch is not taken, and
whenever `diff > L` the (possibly NaN) trigonometric result is discarded and
the operation returns `0`. -/
theorem trig_argument_in_range_when_diff_le_length
    (es : ExecState) (tag : TagIdentifier) (args : Args) (to_ : ℝ)
    (sketch : Sketch) (info : TagEngineInfo) (p : Path) (ps : List Path)
    (lastP : Path)
    (hres : es.tagInfo tag = some info) (hpath : info.path = some p)
    (hsk : sketch.paths = ps ++ [lastP]) :
    (|to_ - lastP.get_base.to_.1| ≤ p.length → p.length ≠ 0 →
      0 ≤ |to_ - lastP.get_base.to_.1| / p.length ∧
      |to_ - lastP.get_base.to_.1| / p.length ≤ 1 ∧
      facos (|to_ - lastP.get_base.to_.1|) p.length ≠ none) ∧
    (|to_ - lastP.get_base.to_.2| ≤ p.length → p.length ≠ 0 →
      0 ≤ |to_ - lastP.get_base.to_.2| / p.length ∧
      |to_ - lastP.get_base.to_.2| / p.length ≤ 1 ∧
      fasin (|to_ - lastP.get_base.to_.2|) p.length ≠ none) ∧
    (|to_ - lastP.get_base.to_.1| > p.length →
      inner_angle_to_match_length_x tag to_ sketch es args =
        Except.ok (some 0)) ∧
    (|to_ - lastP.get_base.to_.2| > p.length →
      inner_angle_to_match_length_y tag to_ sketch es args =
        Except.ok (some 0)) := by
  have habs1 : (0:ℝ) ≤ |to_ - lastP.get_base.to_.1| := abs_nonneg _
  have habs2 : (0:ℝ) ≤ |to_ - lastP.get_base.to_.2| := abs_nonneg _
  refine ⟨fun hd hne => ?_, fun hd hne => ?_, fun hd => ?_, fun hd => ?_⟩
  · have hpos : 0 < p.length := lt_of_le_of_ne (le_trans habs1 hd) (Ne.symm hne)
    exact ⟨div_nonneg habs1 hpos.le, (div_le_one hpos).mpr hd,
      by rw [facos_of_le habs1 hd hne]; simp⟩
  · have hpos : 0 < p.length := lt_of_le_of_ne (le_trans habs2 hd) (Ne.symm hne)
    exact ⟨div_nonneg habs2 hpos.le, (div_le_one hpos).mpr hd,
      by rw [fasin_of_le habs2 hd hne]; simp⟩
  · rw [inner_angle_x_resolved to_ sketch hres hpath]
    simp [angle_to_match_length_x_core, lastBaseOrErr_concat hsk, hd]
  · rw [inner_angle_y_resolved to_ sketch hres hpath]
    simp [angle_to_match_length_y_core, lastBaseOrErr_concat hsk, hd]

/-- Witness for the amended C3: with segment length `5` and last point
`(0, 0)`, a reachable target `3` puts the acos argument `3/5` inside
`[0, 1]`, and an unreachable target `20` still yields the result `0`. -/
theorem trig_argument_in_range_when_diff_le_length_witness :
    (0 ≤ |(3:ℝ) - ((0:ℝ), (0:ℝ)).1| / 5 ∧
      |(3:ℝ) - ((0:ℝ), (0:ℝ)).1| / 5 ≤ 1 ∧
      facos (|(3:ℝ) - ((0:ℝ), (0:ℝ)).1|) 5 ≠ none) ∧
    inner_angle_to_match_length_x "seg01" 20
        ⟨[⟨⟨(0, 0), (0, 0)⟩, 5, fun q => q⟩], "sk"⟩
        ⟨fun _ => some ⟨some ⟨⟨(0, 0), (0, 0)⟩, 5, fun q => q⟩, "info"⟩⟩
        ⟨⟨0, 1⟩⟩ = Except.ok (some 0) := by
  have h3 := trig_argument_in_range_when_diff_le_length
    ⟨fun _ => some ⟨some ⟨⟨(0, 0), (0, 0)⟩, 5, fun q => q⟩, "info"⟩⟩
    "seg01" ⟨⟨0, 1⟩⟩ 3
    ⟨[⟨⟨(0, 0), (0, 0)⟩, 5, fun q => q⟩], "sk"⟩
    ⟨some ⟨⟨(0, 0), (0, 0)⟩, 5, fun q => q⟩, "info"⟩
    ⟨⟨(0, 0), (0, 0)⟩, 5, fun q => q⟩ []
    ⟨⟨(0, 0), (0, 0)⟩, 5, fun q => q⟩ rfl rfl rfl
  have h20 := trig_argument_in_range_when_diff_le_length
    ⟨fun _ => some ⟨some ⟨⟨(0, 0), (0, 0)⟩, 5, fun q => q⟩, "info"⟩⟩
    "seg01" ⟨⟨0, 1⟩⟩ 20
    ⟨[⟨⟨(0, 0), (0, 0)⟩, 5, fun q => q⟩], "sk"⟩
    ⟨some ⟨⟨(0, 0), (0, 0)⟩, 5, fun q => q⟩, "info"⟩
    ⟨⟨(0, 0), (0, 0)⟩, 5, fun q => q⟩ []
    ⟨⟨(0, 0), (0, 0)⟩, 5, fun q => q⟩ rfl rfl rfl
  refine ⟨?_, ?_⟩
  · have := h3.1 (by norm_num [Path.get_base, Path.length])
      (by norm_num [Path.length])
    simpa [Path.get_base, Path.length] using this
  · exact h20.2.2.1 (by norm_num [Path.get_base, Path.length])

/-- C4: `lastSegX`/`lastSegY` on a sketch with an empty segment sequence fail
with the `TypeError`-class empty-sketch error (message describing the sketch,
source range of the query) and never return a default value; on a non-empty
sketch they return the x (resp. y) component of the last segment's base `to`
point. -/
theorem last_segment_queries_spec (sketch : Sketch) (args : Args) :
    (sketch.paths = [] →
      inner_last_segment_x sketch args = Except.error (KclError.TypeErr
        { message := "Expected a Sketch with at least one segment, found `" ++
            sketch.dbgRepr ++ "`"
          source_ranges := [args.source_range] }) ∧
      inner_last_segment_y sketch args = Except.error (KclError.TypeErr
        { message := "Expected a Sketch with at least one segment, found `" ++
            sketch.dbgRepr ++ "`"
          source_ranges := [args.source_range] })) ∧
    (∀ (ps : List Path) (lastP : Path), sketch.paths = ps ++ [lastP] →
      inner_last_segment_x sketch args = Except.ok lastP.get_base.to_.1 ∧
      inner_last_segment_y sketch args = Except.ok lastP.get_base.to_.2) := by
  constructor
  · intro hnil
    constructor <;>
      simp [inner_last_segment_x, inner_last_segment_y, lastBaseOrErr_nil hnil]
  · intro ps lastP hsk
    constructor <;>
      simp [inner_last_segment_x, inner_last_segment_y,
        lastBaseOrErr_concat hsk]

/-- Witness for C4: the empty sketch errors, and a one-segment sketch ending
at `(2, 5)` returns `2` for `lastSegX` and `5` for `lastSegY`. -/
theorem last_segment_queries_spec_witness :
    inner_last_segment_x ⟨[], "empty"⟩ ⟨⟨0, 1⟩⟩ = Except.error
      (KclError.TypeErr
        { message := "Expected a Sketch with at least one segment, found `" ++
            "empty" ++ "`"
          source_ranges := [⟨0, 1⟩] }) ∧
    inner_last_segment_x ⟨[⟨⟨(0, 0), (2, 5)⟩, 1, fun q => q⟩], "sk"⟩ ⟨⟨0, 1⟩⟩ =
      Except.ok 2 ∧
    inner_last_segment_y ⟨[⟨⟨(0, 0), (2, 5)⟩, 1, fun q => q⟩], "sk"⟩ ⟨⟨0, 1⟩⟩ =
      Except.ok 5 := by
  have hempty := (last_segment_queries_spec ⟨[], "empty"⟩ ⟨⟨0, 1⟩⟩).1 rfl
  have hfull := (last_segment_queries_spec
    ⟨[⟨⟨(0, 0), (2, 5)⟩, 1, fun q => q⟩], "sk"⟩ ⟨⟨0, 1⟩⟩).2 []
    ⟨⟨(0, 0), (2, 5)⟩, 1, fun q => q⟩ rfl
  exact ⟨hempty.1, hfull.1, hfull.2⟩

/-- C5: for a two-segment sketch where the second segment is a straight
continuation tangent to the first — its start is the first segment's end and
its displacement is a positive multiple `t` of the first segment's outgoing
tangent direction (end point minus tangent reference point) — the
`tangentToEnd` angle of the first segment equals the `segAng` orientation
angle of the second (exactly, in the real-number model). -/
theorem tangent_to_end_matches_next_segment_angle
    (es : ExecState) (tag1 tag2 : TagIdentifier) (args : Args)
    (sketch : Sketch) (info1 info2 : TagEngineInfo) (p1 p2 : Path) (t : ℝ)
    (hres1 : es.tagInfo tag1 = some info1) (hpath1 : info1.path = some p1)
    (hres2 : es.tagInfo tag2 = some info2) (hpath2 : info2.path = some p2)
    (hsk : sketch.paths = [p1, p2]) (ht : 0 < t)
    (hfrom : p2.get_from = p1.get_to)
    (hto : p2.get_to =
      (p1.get_to.1 + t * (p1.get_to.1 - (p1.tanPrev p1.get_to).1),
       p1.get_to.2 + t * (p1.get_to.2 - (p1.tanPrev p1.get_to).2))) :
    inner_tangent_to_end tag1 es args = inner_segment_angle tag2 es args := by
  have hT : inner_tangent_to_end tag1 es args =
      Except.ok (toDegrees
        (atan2 (p1.get_to.2 - (p1.tanPrev p1.get_to).2)
          (p1.get_to.1 - (p1.tanPrev p1.get_to).1))) := by
    simp [inner_tangent_to_end, get_tag_engine_info_ok hres1,
      pathOrErr_some hpath1, Path.get_to]
  have hA : inner_segment_angle tag2 es args =
      Except.ok (toDegrees (between p2.get_from p2.get_to)) := by
    simp [inner_segment_angle, get_tag_engine_info_ok hres2,
      pathOrErr_some hpath2]
  have hy : p2.get_to.2 - p2.get_from.2 =
      t * (p1.get_to.2 - (p1.tanPrev p1.get_to).2) := by
    rw [hto, hfrom]
    ring
  have hx : p2.get_to.1 - p2.get_from.1 =
      t * (p1.get_to.1 - (p1.tanPrev p1.get_to).1) := by
    rw [hto, hfrom]
    ring
  rw [hT, hA]
  unfold between
  rw [hy, hx, atan2_mul_pos _ _ ht]

/-- Witness for C5: segment 1 is the unit horizontal line `(0,0) → (1,0)`
whose straight-line tangent reference point is its start `(0,0)`; segment 2
continues straight to `(2,0)` (`t = 1`); the two query results agree. -/
theorem tangent_to_end_matches_next_segment_angle_witness :
    inner_tangent_to_end "a"
      ⟨fun tg => if tg = "a" then
          some ⟨some ⟨⟨(0, 0), (1, 0)⟩, 1, fun _ => (0, 0)⟩, "p1"⟩
        else some ⟨some ⟨⟨(1, 0), (2, 0)⟩, 1, fun _ => (1, 0)⟩, "p2"⟩⟩
      ⟨⟨0, 1⟩⟩ =
    inner_segment_angle "b"
      ⟨fun tg => if tg = "a" then
          some ⟨some ⟨⟨(0, 0), (1, 0)⟩, 1, fun _ => (0, 0)⟩, "p1"⟩
        else some ⟨some ⟨⟨(1, 0), (2, 0)⟩, 1, fun _ => (1, 0)⟩, "p2"⟩⟩
      ⟨⟨0, 1⟩⟩ := by
  refine tangent_to_end_matches_next_segment_angle _ "a" "b" _
    ⟨[⟨⟨(0, 0), (1, 0)⟩, 1, fun _ => (0, 0)⟩,
      ⟨⟨(1, 0), (2, 0)⟩, 1, fun _ => (1, 0)⟩], "sk"⟩
    ⟨some ⟨⟨(0, 0), (1, 0)⟩, 1, fun _ => (0, 0)⟩, "p1"⟩
    ⟨some ⟨⟨(1, 0), (2, 0)⟩, 1, fun _ => (1, 0)⟩, "p2"⟩
    ⟨⟨(0, 0), (1, 0)⟩, 1, fun _ => (0, 0)⟩
    ⟨⟨(1, 0), (2, 0)⟩, 1, fun _ => (1, 0)⟩ 1
    (by norm_num) rfl (by simp) rfl rfl one_pos
    (by norm_num [Path.get_from, Path.get_to])
    (by norm_num [Path.get_to, Prod.ext_iff])

/-- C6: for every tag that resolves to a segment with a path, `tangentToEnd`
returns `atan2(to.y - ref.y, to.x - ref.x)` converted to degrees, where `to`
is the segment's base end point and `ref` is the tangent reference point
obtained from the segment's tangential info applied to the end point. -/
theorem tangent_to_end_formula
    (es : ExecState) (tag : TagIdentifier) (args : Args)
    (info : TagEngineInfo) (p : Path)
    (hres : es.tagInfo tag = some info) (hpath : info.path = some p) :
    inner_tangent_to_end tag es args =
      Except.ok (toDegrees
        (atan2 (p.get_to.2 - (p.tanPrev p.get_to).2)
          (p.get_to.1 - (p.tanPrev p.get_to).1))) := by
  simp [inner_tangent_to_end, get_tag_engine_info_ok hres,
    pathOrErr_some hpath, Path.get_to]

/-- Witness for C6: a segment ending at `(2, 0)` whose tangent reference
point is `(0, 0)` has outgoing tangent `atan2(0, 2) = 0` degrees. -/
theorem tangent_to_end_formula_witness :
    inner_tangent_to_end "a"
      ⟨fun _ => some ⟨some ⟨⟨(0, 0), (2, 0)⟩, 2, fun _ => (0, 0)⟩, "p"⟩⟩
      ⟨⟨0, 1⟩⟩ = Except.ok 0 := by
  rw [tangent_to_end_formula _ "a" _
    ⟨some ⟨⟨(0, 0), (2, 0)⟩, 2, fun _ => (0, 0)⟩, "p"⟩
    ⟨⟨(0, 0), (2, 0)⟩, 2, fun _ => (0, 0)⟩ rfl rfl]
  norm_num [Path.get_to]
  rw [atan2_zero_pos (by norm_num : (0:ℝ) < 2), toDegrees_zero]

/-- C7: for every tag that resolves to a segment with a path and distinct
`from`/`to` points, `segAng` returns the angle in degrees of the vector from
the segment's `from` point to its `to` point, computed via the two-argument
arctangent; a straight segment `(0,0) → (w,0)` with `w > 0` gives `0`
degrees, and `(0,0) → (0,h)` with `h > 0` gives `90` degrees. -/
theorem segment_angle_formula
    (es : ExecState) (tag : TagIdentifier) (args : Args)
    (info : TagEngineInfo) (p : Path)
    (hres : es.tagInfo tag = some info) (hpath : info.path = some p)
    (hne : p.get_from ≠ p.get_to) :
    inner_segment_angle tag es args =
      Except.ok (toDegrees
        (atan2 (p.get_to.2 - p.get_from.2) (p.get_to.1 - p.get_from.1))) ∧
    (∀ w : ℝ, 0 < w → p.get_from = (0, 0) → p.get_to = (w, 0) →
      inner_segment_angle tag es args = Except.ok 0) ∧
    (∀ h : ℝ, 0 < h → p.get_from = (0, 0) → p.get_to = (0, h) →
      inner_segment_angle tag es args = Except.ok 90) := by
  have hbase : inner_segment_angle tag es args =
      Except.ok (toDegrees (between p.get_from p.get_to)) := by
    simp [inner_segment_angle, get_tag_engine_info_ok hres,
      pathOrErr_some hpath]
  refine ⟨hbase, fun w hw h1 h2 => ?_, fun h hh h1 h2 => ?_⟩
  · rw [hbase]
    unfold between
    rw [h1, h2]
    norm_num
    rw [atan2_zero_pos hw, toDegrees_zero]
  · rw [hbase]
    unfold between
    rw [h1, h2]
    norm_num
    rw [atan2_pos_zero hh, toDegrees_pi_div_two]

/-- Witness for C7: a horizontal segment `(0,0) → (3,0)` yields `0` degrees
and a vertical segment `(0,0) → (0,4)` yields `90` degrees. -/
theorem segment_angle_formula_witness :
    inner_segment_angle "a"
      ⟨fun _ => some ⟨some ⟨⟨(0, 0), (3, 0)⟩, 3, fun q => q⟩, "p"⟩⟩
      ⟨⟨0, 1⟩⟩ = Except.ok 0 ∧
    inner_segment_angle "a"
      ⟨fun _ => some ⟨some ⟨⟨(0, 0), (0, 4)⟩, 4, fun q => q⟩, "p"⟩⟩
      ⟨⟨0, 1⟩⟩ = Except.ok 90 := by
  constructor
  · exact (segment_angle_formula _ "a" _
      ⟨some ⟨⟨(0, 0), (3, 0)⟩, 3, fun q => q⟩, "p"⟩
      ⟨⟨(0, 0), (3, 0)⟩, 3, fun q => q⟩ rfl rfl
      (by norm_num [Path.get_from, Path.get_to, Prod.ext_iff])).2.1 3
      (by norm_num) rfl rfl
  · exact (segment_angle_formula _ "a" _
      ⟨some ⟨⟨(0, 0), (0, 4)⟩, 4, fun q => q⟩, "p"⟩
      ⟨⟨(0, 0), (0, 4)⟩, 4, fun q => q⟩ rfl rfl
      (by norm_num [Path.get_from, Path.get_to, Prod.ext_iff])).2.2 4
      (by norm_num) rfl rfl

/-- C8: for every tag that resolves to a degenerate (zero-length,
`from = to`) segment, `segAng` does not fail with an error: it returns the
unguarded numeric result of applying the orientation formula to the
degenerate segment (the model's counterpart of the undefined/NaN-like
angle), leaving the case to the caller. -/
theorem segment_angle_degenerate_no_error
    (es : ExecState) (tag : TagIdentifier) (args : Args)
    (info : TagEngineInfo) (p : Path)
    (hres : es.tagInfo tag = some info) (hpath : info.path = some p)
    (hdeg : p.get_from = p.get_to) :
    inner_segment_angle tag es args =
      Except.ok (toDegrees (between p.get_from p.get_to)) := by
  simp [inner_segment_angle, get_tag_engine_info_ok hres, pathOrErr_some hpath]

/-- Witness for C8: the degenerate segment `(1,1) → (1,1)` yields a
successful result (the unguarded formula evaluates to `atan2 0 0` degrees),
not an error. -/
theorem segment_angle_degenerate_no_error_witness :
    inner_segment_angle "a"
      ⟨fun _ => some ⟨some ⟨⟨(1, 1), (1, 1)⟩, 0, fun q => q⟩, "p"⟩⟩
      ⟨⟨0, 1⟩⟩ = Except.ok (toDegrees (between (1, 1) (1, 1))) :=
  segment_angle_degenerate_no_error _ "a" _
    ⟨some ⟨⟨(1, 1), (1, 1)⟩, 0, fun q => q⟩, "p"⟩
    ⟨⟨(1, 1), (1, 1)⟩, 0, fun q => q⟩ rfl rfl rfl

/-- C9: for every tag-based query (`segEnd`, `segEndX`, `segEndY`,
`segStart`, `segStartX`, `segStartY`, `segLen`, `segAng`, `tangentToEnd`,
`angleToMatchLengthX`, `angleToMatchLengthY`), if the tag's resolved engine
info has no geometric path the operation fails with the `TypeError`-class
error whose message describes the resolved value and whose source ranges
contain the triggering source location; if the path is present, that error
branch is not taken and each query proceeds with the path. -/
theorem tag_query_path_error_taxonomy
    (es : ExecState) (tag : TagIdentifier) (args : Args) (to_ : ℝ)
    (sketch : Sketch) (info : TagEngineInfo)
    (hres : es.tagInfo tag = some info) :
    (pathMissingError info args = KclError.TypeErr
      { message := "Expected a line segment with a path, found `" ++
          info.dbgRepr ++ "`"
        source_ranges := [args.source_range] }) ∧
    (info.path = none →
      inner_segment_end tag es args =
        Except.error (pathMissingError info args) ∧
      inner_segment_end_x tag es args =
        Except.error (pathMissingError info args) ∧
      inner_segment_end_y tag es args =
        Except.error (pathMissingError info args) ∧
      inner_segment_start tag es args =
        Except.error (pathMissingError info args) ∧
      inner_segment_start_x tag es args =
        Except.error (pathMissingError info args) ∧
      inner_segment_start_y tag es args =
        Except.error (pathMissingError info args) ∧
      inner_segment_length tag es args =
        Except.error (pathMissingError info args) ∧
      inner_segment_angle tag es args =
        Except.error (pathMissingError info args) ∧
      inner_tangent_to_end tag es args =
        Except.error (pathMissingError info args) ∧
      inner_angle_to_match_length_x tag to_ sketch es args =
        Except.error (pathMissingError info args) ∧
      inner_angle_to_match_length_y tag to_ sketch es args =
        Except.error (pathMissingError info args)) ∧
    (∀ p : Path, info.path = some p →
      inner_segment_end tag es args = Except.ok p.get_base.to_ ∧
      inner_segment_end_x tag es args = Except.ok p.get_base.to_.1 ∧
      inner_segment_end_y tag es args = Except.ok p.get_to.2 ∧
      inner_segment_start tag es args = Except.ok p.get_from ∧
      inner_segment_start_x tag es args = Except.ok p.get_from.1 ∧
      inner_segment_start_y tag es args = Except.ok p.get_from.2 ∧
      inner_segment_length tag es args = Except.ok p.length ∧
      inner_segment_angle tag es args =
        Except.ok (toDegrees (between p.get_from p.get_to)) ∧
      inner_tangent_to_end tag es args =
        Except.ok (toDegrees
          (atan2 (p.get_to.2 - (p.tanPrev p.get_to).2)
            (p.get_to.1 - (p.tanPrev p.get_to).1))) ∧
      inner_angle_to_match_length_x tag to_ sketch es args =
        angle_to_match_length_x_core p to_ sketch args ∧
      inner_angle_to_match_length_y tag to_ sketch es args =
        angle_to_match_length_y_core p to_ sketch args) := by
  refine ⟨rfl, fun hnone => ?_, fun p hp => ?_⟩
  · have hperr : pathOrErr info args = Except.error (pathMissingError info args) := by
      simp [pathOrErr, hnone]
    simp [inner_segment_end, inner_segment_end_x, inner_segment_end_y,
      inner_segment_start, inner_segment_start_x, inner_segment_start_y,
      inner_segment_length, inner_segment_angle, inner_tangent_to_end,
      inner_angle_to_match_length_x, inner_angle_to_match_length_y,
      get_tag_engine_info_ok hres, hperr]
  · simp [inner_segment_end, inner_segment_end_x, inner_segment_end_y,
      inner_segment_start, inner_segment_start_x, inner_segment_start_y,
      inner_segment_length, inner_segment_angle, inner_tangent_to_end,
      inner_angle_to_match_length_x, inner_angle_to_match_length_y,
      get_tag_engine_info_ok hres, pathOrErr_some hp, Path.get_to]

/-- Witness for C9: a tag bound to a path-less value makes `segEnd` fail with
the path-missing `TypeError`, while a tag bound to a segment `(0,0) → (2,5)`
of length `6` makes `segEnd` return `(2,5)` and `segLen` return `6`. -/
theorem tag_query_path_error_taxonomy_witness :
    inner_segment_end "a" ⟨fun _ => some ⟨none, "notASegment"⟩⟩ ⟨⟨0, 1⟩⟩ =
      Except.error (pathMissingError ⟨none, "notASegment"⟩ ⟨⟨0, 1⟩⟩) ∧
    inner_segment_end "a"
      ⟨fun _ => some ⟨some ⟨⟨(0, 0), (2, 5)⟩, 6, fun q => q⟩, "seg"⟩⟩
      ⟨⟨0, 1⟩⟩ = Except.ok (2, 5) ∧
    inner_segment_length "a"
      ⟨fun _ => some ⟨some ⟨⟨(0, 0), (2, 5)⟩, 6, fun q => q⟩, "seg"⟩⟩
      ⟨⟨0, 1⟩⟩ = Except.ok 6 := by
  have hnone := (tag_query_path_error_taxonomy
    ⟨fun _ => some ⟨none, "notASegment"⟩⟩ "a" ⟨⟨0, 1⟩⟩ 0 ⟨[], "sk"⟩
    ⟨none, "notASegment"⟩ rfl).2.1 rfl
  have hsome := (tag_query_path_error_taxonomy
    ⟨fun _ => some ⟨some ⟨⟨(0, 0), (2, 5)⟩, 6, fun q => q⟩, "seg"⟩⟩ "a"
    ⟨⟨0, 1⟩⟩ 0 ⟨[], "sk"⟩
    ⟨some ⟨⟨(0, 0), (2, 5)⟩, 6, fun q => q⟩, "seg"⟩ rfl).2.2
    ⟨⟨(0, 0), (2, 5)⟩, 6, fun q => q⟩ rfl
  exact ⟨hnone.1, hsome.1, hsome.2.2.2.2.2.2.1⟩

/-- C10: for calls to `angleToMatchLengthX`/`angleToMatchLengthY` on a sketch
with an empty segment sequence (the tag resolving to a segment with a path),
the operation fails with exactly the same `TypeError`-class empty-sketch
error value as the last-segment queries `lastSegX`/`lastSegY` produce for
that sketch — even though the spec attributes this error only to the
last-segment queries. -/
theorem angle_to_match_length_empty_sketch_error
    (es : ExecState) (tag : TagIdentifier) (args : Args) (to_ : ℝ)
    (sketch : Sketch) (info : TagEngineInfo) (p : Path)
    (hres : es.tagInfo tag = some info) (hpath : info.path = some p)
    (hnil : sketch.paths = []) :
    inner_angle_to_match_length_x tag to_ sketch es args =
      Except.error (emptySketchError sketch args) ∧
    inner_angle_to_match_length_y tag to_ sketch es args =
      Except.error (emptySketchError sketch args) ∧
    inner_last_segment_x sketch args =
      Except.error (emptySketchError sketch args) ∧
    inner_last_segment_y sketch args =
      Except.error (emptySketchError sketch args) ∧
    emptySketchError sketch args = KclError.TypeErr
      { message := "Expected a Sketch with at least one segment, found `" ++
          sketch.dbgRepr ++ "`"
        source_ranges := [args.source_range] } := by
  have hlast : lastBaseOrErr sketch args =
      Except.error (emptySketchError sketch args) := by
    simp [lastBaseOrErr, hnil]
  refine ⟨?_, ?_, ?_, ?_, rfl⟩
  · rw [inner_angle_x_resolved to_ sketch hres hpath]
    simp [angle_to_match_length_x_core, hlast]
  · rw [inner_angle_y_resolved to_ sketch hres hpath]
    simp [angle_to_match_length_y_core, hlast]
  · simp [inner_last_segment_x, hlast]
  · simp [inner_last_segment_y, hlast]

/-- Witness for C10: on the empty sketch, `angleToMatchLengthX` with a
resolvable tag and both last-segment queries all fail with the same
empty-sketch error value. -/
theorem angle_to_match_length_empty_sketch_error_witness :
    inner_angle_to_match_length_x "a" 7 ⟨[], "emptySk"⟩
      ⟨fun _ => some ⟨some ⟨⟨(0, 0), (2, 5)⟩, 6, fun q => q⟩, "seg"⟩⟩
      ⟨⟨0, 1⟩⟩ =
      Except.error (emptySketchError ⟨[], "emptySk"⟩ ⟨⟨0, 1⟩⟩) ∧
    inner_last_segment_x ⟨[], "emptySk"⟩ ⟨⟨0, 1⟩⟩ =
      Except.error (emptySketchError ⟨[], "emptySk"⟩ ⟨⟨0, 1⟩⟩) := by
  have h := angle_to_match_length_empty_sketch_error
    ⟨fun _ => some ⟨some ⟨⟨(0, 0), (2, 5)⟩, 6, fun q => q⟩, "seg"⟩⟩ "a"
    ⟨⟨0, 1⟩⟩ 7 ⟨[], "emptySk"⟩
    ⟨some ⟨⟨(0, 0), (2, 5)⟩, 6, fun q => q⟩, "seg"⟩
    ⟨⟨(0, 0), (2, 5)⟩, 6, fun q => q⟩ rfl rfl rfl
  exact ⟨h.1, h.2.2.1⟩

end

end SegmentSpec
